import Mathlib

/-!
Shallow embedding of the PhomoV2CDK infrastructure definition (AWS CDK, TypeScript).
The stacks synthesize, per deployment stage, DynamoDB tables, SQS queues, Lambda
functions with event sources, EventBridge rules, an S3 bucket, a Cognito user pool
and IAM grants.  Each definition below mirrors the corresponding construct
configuration in the source stacks; handler code that lives outside this
repository is modelled from the specification and marked as such.
-/

namespace PhomoV2CDK

/-- DynamoDB attribute types used by the stacks. -/
inductive AttributeType
  | STRING
  | NUMBER
deriving DecidableEq, Repr

/-- A key attribute (name and type) of a table or index. -/
structure KeyAttr where
  name : String
  type : AttributeType
deriving DecidableEq, Repr

/-- DynamoDB stream view types. -/
inductive StreamViewType
  | NEW_IMAGE
  | OLD_IMAGE
  | NEW_AND_OLD_IMAGES
  | KEYS_ONLY
deriving DecidableEq, Repr

/-- CloudFormation removal policies used in the stacks. -/
inductive RemovalPolicy
  | RETAIN
  | DESTROY
deriving DecidableEq, Repr

/-- A global secondary index: name, partition key, optional sort key. -/
structure GlobalSecondaryIndex where
  indexName : String
  partitionKey : KeyAttr
  sortKey : Option KeyAttr
deriving DecidableEq, Repr

/-- The table configuration fields the database stack sets. -/
structure TableProps where
  tableName : String
  partitionKey : KeyAttr
  stream : Option StreamViewType
  pointInTimeRecovery : Bool
  removalPolicy : RemovalPolicy
  deletionProtection : Bool
  globalSecondaryIndexes : List GlobalSecondaryIndex
deriving DecidableEq, Repr

/-- Identifiers of the nine tables the DatabaseStack exposes; other stacks
reference the tables through these object references, not by name. -/
inductive TableId
  | user
  | friendship
  | content
  | recipientEdge
  | feedEntry
  | faceIdentity
  | contentFace
  | event
  | eventMember
deriving DecidableEq, Repr

/-- DatabaseStack: the nine DynamoDB tables, translated field by field from
src/lib/stacks/database-stack.ts (billing mode PAY_PER_REQUEST everywhere is
omitted as constant). -/
def databaseStack (stageName : String) : TableId → TableProps :=
  let isProd : Bool := stageName == "prod"
  let removal : RemovalPolicy := if isProd then .RETAIN else .DESTROY
  fun t =>
    match t with
    | .user =>
      { tableName := "User-" ++ stageName
        partitionKey := ⟨"userId", .STRING⟩
        stream := none
        pointInTimeRecovery := isProd
        removalPolicy := removal
        deletionProtection := isProd
        globalSecondaryIndexes :=
          [⟨"PhoneNumberIndex", ⟨"phoneNumber", .STRING⟩, none⟩] }
    | .friendship =>
      { tableName := "Friendship-" ++ stageName
        partitionKey := ⟨"friendshipId", .STRING⟩
        stream := none
        pointInTimeRecovery := isProd
        removalPolicy := removal
        deletionProtection := isProd
        globalSecondaryIndexes :=
          [⟨"User1Index", ⟨"user1Id", .STRING⟩, some ⟨"status", .STRING⟩⟩,
           ⟨"User2Index", ⟨"user2Id", .STRING⟩, some ⟨"status", .STRING⟩⟩,
           ⟨"UserPairIndex", ⟨"userPair", .STRING⟩, none⟩] }
    | .content =>
      { tableName := "Content-" ++ stageName
        partitionKey := ⟨"contentId", .STRING⟩
        stream := none
        pointInTimeRecovery := isProd
        removalPolicy := removal
        deletionProtection := isProd
        globalSecondaryIndexes :=
          [⟨"OwnerContentIndex", ⟨"ownerId", .STRING⟩, some ⟨"createdAt", .STRING⟩⟩,
           ⟨"EventContentIndex", ⟨"eventId", .STRING⟩, some ⟨"createdAt", .STRING⟩⟩] }
    | .recipientEdge =>
      { tableName := "RecipientEdge-" ++ stageName
        partitionKey := ⟨"edgeId", .STRING⟩
        stream := some .NEW_IMAGE
        pointInTimeRecovery := isProd
        removalPolicy := removal
        deletionProtection := isProd
        globalSecondaryIndexes :=
          [⟨"RecipientContentIndex", ⟨"recipientUserId", .STRING⟩, some ⟨"createdAt", .STRING⟩⟩,
           ⟨"ContentRecipientsIndex", ⟨"contentId", .STRING⟩, some ⟨"recipientUserId", .STRING⟩⟩,
           ⟨"OwnerRecipientIndex", ⟨"contentOwnerId", .STRING⟩, some ⟨"recipientUserId", .STRING⟩⟩] }
    | .feedEntry =>
      { tableName := "FeedEntry-" ++ stageName
        partitionKey := ⟨"feedEntryId", .STRING⟩
        stream := none
        pointInTimeRecovery := isProd
        removalPolicy := removal
        deletionProtection := isProd
        globalSecondaryIndexes :=
          [⟨"UserFeedIndex", ⟨"recipientUserId", .STRING⟩, some ⟨"edgeCreatedAt", .STRING⟩⟩] }
    | .faceIdentity =>
      { tableName := "FaceIdentity-" ++ stageName
        partitionKey := ⟨"faceIdentityId", .STRING⟩
        stream := none
        pointInTimeRecovery := isProd
        removalPolicy := removal
        deletionProtection := isProd
        globalSecondaryIndexes :=
          [⟨"OwnerUnknownFacesIndex", ⟨"ownerId", .STRING⟩, some ⟨"status", .STRING⟩⟩,
           ⟨"FaceIdIndex", ⟨"faceId", .STRING⟩, none⟩] }
    | .contentFace =>
      { tableName := "ContentFace-" ++ stageName
        partitionKey := ⟨"contentFaceId", .STRING⟩
        stream := none
        pointInTimeRecovery := isProd
        removalPolicy := removal
        deletionProtection := isProd
        globalSecondaryIndexes :=
          [⟨"ContentFacesIndex", ⟨"contentId", .STRING⟩, some ⟨"faceIdentityId", .STRING⟩⟩,
           ⟨"FaceIdentityContentIndex", ⟨"faceIdentityId", .STRING⟩, some ⟨"contentId", .STRING⟩⟩] }
    | .event =>
      { tableName := "Phomo-Event-" ++ stageName
        partitionKey := ⟨"eventId", .STRING⟩
        stream := none
        pointInTimeRecovery := isProd
        removalPolicy := removal
        deletionProtection := isProd
        globalSecondaryIndexes :=
          [⟨"OwnerEventsIndex", ⟨"ownerId", .STRING⟩, some ⟨"createdAt", .STRING⟩⟩] }
    | .eventMember =>
      { tableName := "Phomo-EventMember-" ++ stageName
        partitionKey := ⟨"eventMemberId", .STRING⟩
        stream := none
        pointInTimeRecovery := isProd
        removalPolicy := removal
        deletionProtection := isProd
        globalSecondaryIndexes :=
          [⟨"UserEventsIndex", ⟨"userId", .STRING⟩, some ⟨"joinedAt", .STRING⟩⟩,
           ⟨"EventMembersIndex", ⟨"eventId", .STRING⟩, some ⟨"userId", .STRING⟩⟩] }

/-- The single S3 bucket of the StorageStack. -/
inductive BucketId
  | photoBucket
deriving DecidableEq, Repr

/-- Bucket configuration fields set by the StorageStack (CORS, lifecycle and
encryption details are constants unrelated to the claims and kept as the
booleans the stack sets). -/
structure BucketProps where
  bucketName : String
  versioned : Bool
  enforceSSL : Bool
  blockAllPublicAccess : Bool
  eventBridgeEnabled : Bool
  removalPolicy : RemovalPolicy
  autoDeleteObjects : Bool
deriving DecidableEq, Repr

/-- IAM policy effect. -/
inductive Effect
  | ALLOW
  | DENY
deriving DecidableEq, Repr

/-- An S3 resource reference in a policy statement: the bucket object reference
plus the key pattern appended to its ARN (`none` means the bucket ARN itself).
`$\x7bcognito-identity.amazonaws.com:sub\x7d` is the caller's identity id. -/
structure S3ResourceRef where
  bucket : BucketId
  keyPattern : Option String
deriving DecidableEq, Repr

/-- One IAM policy statement of the authenticated role.  `prefixConditions`
holds the values of the `s3:prefix` StringLike condition when present. -/
structure S3PolicyStatement where
  effect : Effect
  actions : List String
  resources : List S3ResourceRef
  prefixConditions : List String
deriving DecidableEq, Repr

/-- StorageStack: the photo bucket, translated from the source. -/
def storagePhotoBucket (stageName : String) : BucketProps :=
  { bucketName := "phomov2-photos-" ++ stageName
    versioned := false
    enforceSSL := true
    blockAllPublicAccess := true
    eventBridgeEnabled := true
    removalPolicy := if stageName == "prod" then .RETAIN else .DESTROY
    autoDeleteObjects := stageName != "prod" }

/-- The identity-scoped key fragment used in the role policies. -/
def identitySub : String := "$\x7bcognito-identity.amazonaws.com:sub\x7d"

/-- StorageStack: the five policy statements added to the authenticated role,
in source order (upload own, read own, read all, delete own, list own). -/
def authenticatedRolePolicy : List S3PolicyStatement :=
  [{ effect := .ALLOW
     actions := ["s3:PutObject", "s3:PutObjectAcl"]
     resources :=
       [⟨.photoBucket, some ("photos/" ++ identitySub ++ "/*")⟩,
        ⟨.photoBucket, some ("faces/" ++ identitySub ++ "/*")⟩]
     prefixConditions := [] },
   { effect := .ALLOW
     actions := ["s3:GetObject"]
     resources :=
       [⟨.photoBucket, some ("photos/" ++ identitySub ++ "/*")⟩,
        ⟨.photoBucket, some ("faces/" ++ identitySub ++ "/*")⟩]
     prefixConditions := [] },
   { effect := .ALLOW
     actions := ["s3:GetObject"]
     resources :=
       [⟨.photoBucket, some "photos/*/*"⟩,
        ⟨.photoBucket, some "faces/*/*"⟩]
     prefixConditions := [] },
   { effect := .ALLOW
     actions := ["s3:DeleteObject"]
     resources :=
       [⟨.photoBucket, some ("photos/" ++ identitySub ++ "/*")⟩,
        ⟨.photoBucket, some ("faces/" ++ identitySub ++ "/*")⟩]
     prefixConditions := [] },
   { effect := .ALLOW
     actions := ["s3:ListBucket"]
     resources := [⟨.photoBucket, none⟩]
     prefixConditions :=
       ["photos/" ++ identitySub ++ "/*",
        "faces/" ++ identitySub ++ "/*"] }]

/-- Cognito user pool fields relevant here, from the AuthStack. -/
structure UserPoolProps where
  userPoolName : String
  signInWithPhone : Bool
  selfSignUpEnabled : Bool
  deletionProtection : Bool
  removalPolicy : RemovalPolicy
deriving DecidableEq, Repr

/-- AuthStack: the user pool, translated from the source. -/
def authUserPool (stageName : String) : UserPoolProps :=
  { userPoolName := "Phomo-UserPool-" ++ stageName
    signInWithPhone := true
    selfSignUpEnabled := true
    deletionProtection := stageName == "prod"
    removalPolicy := if stageName == "prod" then .RETAIN else .DESTROY }

/-- The two SQS queues of the FaceProcessingStack. -/
inductive QueueId
  | photoProcessing
  | photoProcessingDLQ
deriving DecidableEq, Repr

/-- Dead-letter configuration of a queue. -/
structure DeadLetterQueueProps where
  queue : QueueId
  maxReceiveCount : Nat
deriving DecidableEq, Repr

/-- Queue configuration fields set by the FaceProcessingStack.
`visibilityTimeoutSeconds = none` means the service default. -/
structure QueueProps where
  queueName : String
  visibilityTimeoutSeconds : Option Nat
  retentionPeriodDays : Nat
  deadLetterQueue : Option DeadLetterQueueProps
deriving DecidableEq, Repr

/-- FaceProcessingStack: the photo-processing queue and its DLQ. -/
def faceProcessingQueues (stageName : String) : QueueId → QueueProps := fun q =>
  match q with
  | .photoProcessing =>
    { queueName := "phomo-photo-processing-" ++ stageName
      visibilityTimeoutSeconds := some 30
      retentionPeriodDays := 4
      deadLetterQueue := some ⟨.photoProcessingDLQ, 3⟩ }
  | .photoProcessingDLQ =>
    { queueName := "phomo-photo-processing-dlq-" ++ stageName
      visibilityTimeoutSeconds := none
      retentionPeriodDays := 14
      deadLetterQueue := none }

/-- The eight Lambda functions declared across the stacks. -/
inductive LambdaId
  | processContentFaces
  | enrollFace
  | retroactiveMatch
  | feedEntrySync
  | sendEventReminders
  | acceptFriendship
  | getContentUrl
  | findFriendsByPhone
deriving DecidableEq, Repr

/-- Enumeration of all Lambda functions of one stage. -/
def LambdaId.all : List LambdaId :=
  [.processContentFaces, .enrollFace, .retroactiveMatch, .feedEntrySync,
   .sendEventReminders, .acceptFriendship, .getContentUrl, .findFriendsByPhone]

/-- Starting position of a DynamoDB stream event source mapping. -/
inductive StartingPosition
  | TRIM_HORIZON
  | LATEST
deriving DecidableEq, Repr

/-- A failure destination of a stream event source mapping (none are
configured anywhere in the stacks, but the configuration slot exists). -/
inductive OnFailureDestination
  | sqsDestination (queue : QueueId)
deriving DecidableEq, Repr

/-- An event source mapping attached to a Lambda function. -/
inductive EventSourceMapping
  | sqsSource (queue : QueueId) (batchSize : Nat) (maxBatchingWindowSeconds : Nat)
  | dynamoStreamSource (table : TableId) (startingPosition : StartingPosition)
      (batchSize : Nat) (bisectBatchOnError : Bool) (retryAttempts : Nat)
      (onFailure : Option OnFailureDestination)
deriving DecidableEq, Repr

/-- Lambda configuration fields the stacks set (entry path, env plumbing and
bundling options carry no claim content and are omitted). -/
structure LambdaProps where
  functionName : String
  timeoutSeconds : Nat
  memorySize : Nat
  eventSources : List EventSourceMapping
deriving DecidableEq, Repr

/-- All Lambda functions of one stage, translated from the
FaceProcessingStack, StreamProcessingStack, ScheduledJobsStack and ApiStack.
Event source mappings are those attached via addEventSource in the source
(the scheduled reminder function is triggered by an EventBridge rule target,
not an event source mapping). -/
def stageLambdas (stageName : String) : LambdaId → LambdaProps := fun l =>
  match l with
  | .processContentFaces =>
    { functionName := "phomo-process-content-faces-" ++ stageName
      timeoutSeconds := 30
      memorySize := 512
      eventSources := [.sqsSource .photoProcessing 1 0] }
  | .enrollFace =>
    { functionName := "phomo-enroll-face-" ++ stageName
      timeoutSeconds := 30
      memorySize := 256
      eventSources := [] }
  | .retroactiveMatch =>
    { functionName := "phomo-retroactive-match-" ++ stageName
      timeoutSeconds := 60
      memorySize := 512
      eventSources := [] }
  | .feedEntrySync =>
    { functionName := "phomo-feed-entry-sync-" ++ stageName
      timeoutSeconds := 10
      memorySize := 256
      eventSources :=
        [.dynamoStreamSource .recipientEdge .TRIM_HORIZON 10 true 3 none] }
  | .sendEventReminders =>
    { functionName := "phomo-send-event-reminders-" ++ stageName
      timeoutSeconds := 60
      memorySize := 256
      eventSources := [] }
  | .acceptFriendship =>
    { functionName := "phomo-accept-friendship-" ++ stageName
      timeoutSeconds := 90
      memorySize := 512
      eventSources := [] }
  | .getContentUrl =>
    { functionName := "phomo-get-content-url-" ++ stageName
      timeoutSeconds := 10
      memorySize := 256
      eventSources := [] }
  | .findFriendsByPhone =>
    { functionName := "phomo-find-friends-by-phone-" ++ stageName
      timeoutSeconds := 30
      memorySize := 256
      eventSources := [] }

/-- A target of an EventBridge rule. -/
inductive RuleTarget
  | sqsQueueTarget (queue : QueueId)
  | lambdaTarget (lam : LambdaId)
deriving DecidableEq, Repr

/-- The event pattern of the photo-upload rule: event source strings, detail
types, matched bucket references and object key prefixes. -/
structure EventPattern where
  sourceValues : List String
  detailType : List String
  bucketName : List BucketId
  objectKeyPrefixes : List String
deriving DecidableEq, Repr

/-- An EventBridge rule: either an event-pattern rule or a scheduled rule
(rate in hours). -/
structure Rule where
  ruleName : String
  eventPattern : Option EventPattern
  scheduleRateHours : Option Nat
  targets : List RuleTarget
deriving DecidableEq, Repr

/-- The event pattern of the PhotoUploadRule in the FaceProcessingStack. -/
def photoUploadPattern : EventPattern :=
  { sourceValues := ["aws.s3"]
    detailType := ["Object Created"]
    bucketName := [.photoBucket]
    objectKeyPrefixes := ["photos/"] }

/-- The EventBridge rules of one stage: PhotoUploadRule (FaceProcessingStack)
and EventReminderRule (ScheduledJobsStack). -/
def stageRules (stageName : String) : List Rule :=
  [{ ruleName := "phomo-photo-upload-" ++ stageName
     eventPattern := some photoUploadPattern
     scheduleRateHours := none
     targets := [.sqsQueueTarget .photoProcessing] },
   { ruleName := "phomo-event-reminder-" ++ stageName
     eventPattern := none
     scheduleRateHours := some 1
     targets := [.lambdaTarget .sendEventReminders] }]

/-- The kind of an IAM grant issued in the stacks. -/
inductive GrantKind
  | readData
  | writeData
  | readWriteData
  | invokeFunction
  | bucketRead
deriving DecidableEq, Repr

/-- What a grant is issued on. -/
inductive GrantTarget
  | table (t : TableId)
  | func (l : LambdaId)
  | bucket (b : BucketId)
deriving DecidableEq, Repr

/-- One IAM grant: the grantee Lambda receives `kind` access on `target`. -/
structure Grant where
  kind : GrantKind
  target : GrantTarget
  grantee : LambdaId
deriving DecidableEq, Repr

/-- All grants issued in the stacks, in source order: FaceProcessingStack,
StreamProcessingStack, ScheduledJobsStack, ApiStack.  The grants reference
construct objects, so they are independent of the stage name. -/
def stageGrants : List Grant :=
  [⟨.bucketRead, .bucket .photoBucket, .processContentFaces⟩,
   ⟨.bucketRead, .bucket .photoBucket, .enrollFace⟩,
   ⟨.readWriteData, .table .user, .processContentFaces⟩,
   ⟨.readWriteData, .table .user, .enrollFace⟩,
   ⟨.readData, .table .user, .retroactiveMatch⟩,
   ⟨.readData, .table .friendship, .processContentFaces⟩,
   ⟨.readData, .table .friendship, .retroactiveMatch⟩,
   ⟨.readData, .table .content, .processContentFaces⟩,
   ⟨.writeData, .table .recipientEdge, .processContentFaces⟩,
   ⟨.writeData, .table .recipientEdge, .retroactiveMatch⟩,
   ⟨.readWriteData, .table .faceIdentity, .processContentFaces⟩,
   ⟨.readWriteData, .table .faceIdentity, .retroactiveMatch⟩,
   ⟨.readWriteData, .table .contentFace, .processContentFaces⟩,
   ⟨.readData, .table .contentFace, .retroactiveMatch⟩,
   ⟨.readData, .table .event, .processContentFaces⟩,
   ⟨.readData, .table .content, .feedEntrySync⟩,
   ⟨.writeData, .table .feedEntry, .feedEntrySync⟩,
   ⟨.readData, .table .event, .sendEventReminders⟩,
   ⟨.readData, .table .eventMember, .sendEventReminders⟩,
   ⟨.readData, .table .user, .sendEventReminders⟩,
   ⟨.readWriteData, .table .friendship, .acceptFriendship⟩,
   ⟨.readData, .table .user, .acceptFriendship⟩,
   ⟨.invokeFunction, .func .retroactiveMatch, .acceptFriendship⟩,
   ⟨.readData, .table .content, .getContentUrl⟩,
   ⟨.bucketRead, .bucket .photoBucket, .getContentUrl⟩,
   ⟨.readData, .table .user, .findFriendsByPhone⟩]

/-- Lambdas that receive the wildcard Rekognition role policy in the
FaceProcessingStack. -/
def rekognitionPolicyLambdas : List LambdaId :=
  [.processContentFaces, .enrollFace, .retroactiveMatch]

/-- An AppSync data source added in the ApiStack: either a DynamoDB table
data source or a Lambda data source. -/
inductive DataSource
  | tableSource (t : TableId)
  | lambdaSource (l : LambdaId)
deriving DecidableEq, Repr

/-- The AppSync data sources added in the ApiStack, in source order. -/
def stageDataSources : List DataSource :=
  [.tableSource .user, .tableSource .friendship, .tableSource .content,
   .tableSource .feedEntry, .tableSource .event, .tableSource .eventMember,
   .lambdaSource .acceptFriendship, .lambdaSource .getContentUrl,
   .lambdaSource .findFriendsByPhone, .lambdaSource .enrollFace]

/-- A deployment stage of the app, as assembled by PhomoStage: the tables,
queues, Lambda functions, rules, grants, data sources, photo bucket, role
policy and user pool of one stage. -/
structure Stage where
  stageName : String
  tables : TableId → TableProps
  queues : QueueId → QueueProps
  lambdas : LambdaId → LambdaProps
  rules : List Rule
  grants : List Grant
  dataSources : List DataSource
  photoBucket : BucketProps
  authRolePolicy : List S3PolicyStatement
  userPool : UserPoolProps

/-- The full stage, mirroring the PhomoStage wiring that instantiates
Auth, Storage, Database, Rekognition, FaceProcessing, StreamProcessing,
ScheduledJobs and Api for a stage name. -/
def phomoStage (stageName : String) : Stage :=
  { stageName := stageName
    tables := databaseStack stageName
    queues := faceProcessingQueues stageName
    lambdas := stageLambdas stageName
    rules := stageRules stageName
    grants := stageGrants
    dataSources := stageDataSources
    photoBucket := storagePhotoBucket stageName
    authRolePolicy := authenticatedRolePolicy
    userPool := authUserPool stageName }

/-- The stage names deployed by the pipeline (config/stages.ts). -/
def deployedStageNames : List String := ["dev", "staging", "prod"]

/-- Does a Lambda configuration consume the DynamoDB stream of table `t`? -/
def consumesStreamOf (lp : LambdaProps) (t : TableId) : Bool :=
  lp.eventSources.any fun es =>
    match es with
    | .dynamoStreamSource t2 _ _ _ _ _ => t2 == t
    | _ => false

/-- All Lambdas of a stage that consume the DynamoDB stream of table `t`. -/
def streamConsumers (st : Stage) (t : TableId) : List LambdaId :=
  LambdaId.all.filter fun l => consumesStreamOf (st.lambdas l) t

/-- All Lambdas of a stage holding an invoke grant on function `l`. -/
def invokersOf (st : Stage) (l : LambdaId) : List LambdaId :=
  (st.grants.filter fun g =>
    g.kind == GrantKind.invokeFunction && g.target == GrantTarget.func l).map
    Grant.grantee

/-- The attribute schema of the RecipientEdge table as documented at its
declaration in the database stack: attribute names, the documented value sets
of `method` and `sourceType`, and the documented confidence range.  DynamoDB
enforces none of this; the table's key schema is just `edgeId`. -/
structure DocumentedAttributeSchema where
  attrNames : List String
  methodValues : List String
  sourceTypeValues : List String
  confidenceRange : Nat × Nat
deriving DecidableEq, Repr

/-- Documented RecipientEdge attributes, from the source comment on the
RecipientEdge table declaration. -/
def recipientEdgeDocSchema : DocumentedAttributeSchema :=
  { attrNames :=
      ["contentId", "recipientUserId", "contentOwnerId",
       "method", "confidence", "sourceType", "createdAt"]
    methodValues := ["FACE_MATCH", "SHARED_CAMERA", "MANUAL"]
    sourceTypeValues := ["REALTIME", "RETROACTIVE"]
    confidenceRange := (0, 100) }

/-- The RecipientEdge attribute schema as the specification words it, for
comparison with the documented schema of the source: method values
FACE_MATCH, SHARED_EVENT, MANUAL and a provenance attribute named
`provenance`. -/
def specRecipientEdgeSchema : DocumentedAttributeSchema :=
  { attrNames :=
      ["contentId", "recipientUserId", "contentOwnerId",
       "method", "confidence", "provenance", "createdAt"]
    methodValues := ["FACE_MATCH", "SHARED_EVENT", "MANUAL"]
    sourceTypeValues := ["REALTIME", "RETROACTIVE"]
    confidenceRange := (0, 100) }

/-- A FeedEntry row, with the attributes documented on the FeedEntry table
declaration. -/
structure FeedEntry where
  recipientUserId : String
  contentId : String
  contentOwnerId : String
  contentS3Key : String
  contentThumbS3Key : String
  contentCreatedAt : String
  edgeCreatedAt : String
  method : String
  confidence : Nat
deriving DecidableEq, Repr

/-- Descending order on feed entries by edge-creation time: `a` before `b`
when the edgeCreatedAt of `a` is at least that of `b`. -/
def feedOrder (a b : FeedEntry) : Prop :=
  b.edgeCreatedAt ≤ a.edgeCreatedAt

instance : DecidableRel feedOrder := fun a b =>
  inferInstanceAs (Decidable (b.edgeCreatedAt ≤ a.edgeCreatedAt))

instance : IsTotal FeedEntry feedOrder :=
  ⟨fun a b => (le_total b.edgeCreatedAt a.edgeCreatedAt).elim Or.inl Or.inr⟩

instance : IsTrans FeedEntry feedOrder :=
  ⟨fun _ _ _ hab hbc => le_trans hbc hab⟩

/-- Modelled from the spec: the feed listing read path (Query.getFeed, a
resolver left as a TODO in the ApiStack and not present in this repository)
returns one recipient's FeedEntry rows ordered by edge-creation time
descending, as served by the UserFeedIndex. -/
def listFeed (entries : List FeedEntry) (recipient : String) : List FeedEntry :=
  List.insertionSort feedOrder
    (entries.filter fun e => e.recipientUserId == recipient)

/-- Modelled from the spec: Friendship edges are canonicalized by a
deterministic ordering of the two user identifiers (the database stack
documents the design as user1Id lexicographically before user2Id). -/
def canonicalUserPair (a b : String) : String × String :=
  if a < b then (a, b) else (b, a)

/-- Modelled from the spec: the single userPair lookup key for an unordered
pair of users, in the "alice#bob" shape the database stack documents for the
UserPairIndex. -/
def userPairKey (a b : String) : String :=
  (canonicalUserPair a b).1 ++ "#" ++ (canonicalUserPair a b).2

/-- Modelled from the spec: creating a Friendship edge (the
sendFriendRequest writer, not present in this repository) keys the edge by
the canonical userPair and refuses a duplicate key, here over the set of
existing userPair keys. -/
def createFriendship (keys : List String) (a b : String) : List String :=
  let k := userPairKey a b
  if keys.contains k then keys else k :: keys

/-- Friendship status values, from the documented Friendship schema. -/
inductive FriendshipStatus
  | PENDING
  | ACCEPTED
deriving DecidableEq, Repr

/-- A Friendship row, with the attributes documented on the Friendship table
declaration that the acceptance operation touches. -/
structure FriendshipRec where
  user1Id : String
  user2Id : String
  status : FriendshipStatus
  requesterId : String
deriving DecidableEq, Repr

/-- Modelled from the spec: the accept-friendship resolver (handler code not
present in this repository) transitions a PENDING friendship to ACCEPTED and
invokes the retroactive-match function exactly once on that transition; the
returned number counts the retroactive-match invocations performed. -/
def acceptFriendshipResolver (f : FriendshipRec) : FriendshipRec × Nat :=
  match f.status with
  | .PENDING => ({ f with status := .ACCEPTED }, 1)
  | .ACCEPTED => (f, 0)

/-- All Lambdas of a stage that consume SQS queue `q` through an event
source mapping. -/
def sqsConsumers (st : Stage) (q : QueueId) : List LambdaId :=
  LambdaId.all.filter fun l =>
    (st.lambdas l).eventSources.any fun es =>
      match es with
      | .sqsSource q2 _ _ => q2 == q
      | _ => false

/-- The on-failure destination configured on an event source mapping
(SQS sources carry none; their DLQ lives on the queue). -/
def streamOnFailure : EventSourceMapping → Option OnFailureDestination
  | .dynamoStreamSource _ _ _ _ _ d => d
  | .sqsSource _ _ _ => none

/-- Swapping the two users leaves the canonical pair unchanged. -/
theorem canonicalUserPair_comm (a b : String) :
    canonicalUserPair a b = canonicalUserPair b a := by
  unfold canonicalUserPair
  rcases lt_trichotomy a b with hlt | heq | hgt
  · rw [if_pos hlt, if_neg (not_lt_of_gt hlt)]
  · subst heq; simp
  · rw [if_neg (not_lt_of_gt hgt), if_pos hgt]

/-- Swapping the two users leaves the userPair lookup key unchanged. -/
theorem userPairKey_comm (a b : String) : userPairKey a b = userPairKey b a := by
  unfold userPairKey
  rw [canonicalUserPair_comm]

/-- Creating the reverse-direction edge after an edge already exists for the
pair changes nothing. -/
theorem createFriendship_reverse (keys : List String) (a b : String) :
    createFriendship (createFriendship keys a b) b a = createFriendship keys a b := by
  unfold createFriendship
  rw [userPairKey_comm b a]
  by_cases hm : userPairKey a b ∈ keys
  · simp [hm]
  · simp [hm]

/-- An if-then-else over the two removal policies equals RETAIN exactly when
its condition holds. -/
theorem ite_removal_retain (c : Bool) :
    ((if c then RemovalPolicy.RETAIN else RemovalPolicy.DESTROY) =
      RemovalPolicy.RETAIN) ↔ c = true := by
  cases c <;> simp

/-- C1: the RecipientEdge table is created with a NEW_IMAGE DynamoDB stream,
the feed-entry-sync Lambda is the one and only consumer of that stream in the
stage, and it holds read access on the Content table and write access on the
FeedEntry table. -/
theorem C1_feed_materialization_wiring (s : String) :
    ((phomoStage s).tables TableId.recipientEdge).stream =
      some StreamViewType.NEW_IMAGE ∧
    streamConsumers (phomoStage s) TableId.recipientEdge =
      [LambdaId.feedEntrySync] ∧
    Grant.mk GrantKind.readData (GrantTarget.table TableId.content)
      LambdaId.feedEntrySync ∈ (phomoStage s).grants ∧
    Grant.mk GrantKind.writeData (GrantTarget.table TableId.feedEntry)
      LambdaId.feedEntrySync ∈ (phomoStage s).grants := by
  refine ⟨rfl, rfl, ?_, ?_⟩ <;>
    · show _ ∈ stageGrants
      decide

/-- C2 counterexample: the claim states the method value set contains
SHARED_EVENT and an attribute named provenance exists, but the RecipientEdge
table's documented schema has SHARED_CAMERA (no SHARED_EVENT) and names the
provenance attribute sourceType. -/
theorem C2_schema_counterexample :
    (specRecipientEdgeSchema.methodValues.contains "SHARED_EVENT") = true ∧
    (recipientEdgeDocSchema.methodValues.contains "SHARED_EVENT") = false ∧
    (recipientEdgeDocSchema.attrNames.contains "provenance") = false ∧
    (recipientEdgeDocSchema.attrNames.contains "sourceType") = true := by
  decide

/-- C2 amended: the RecipientEdge table's documented schema carries method
values FACE_MATCH, SHARED_CAMERA, MANUAL, source types REALTIME and
RETROACTIVE under the attribute name sourceType, a confidence range of 0 to
100 and a createdAt attribute, while the table itself enforces only the
edgeId partition key. -/
theorem C2_amended_schema (s : String) :
    recipientEdgeDocSchema.methodValues = ["FACE_MATCH", "SHARED_CAMERA", "MANUAL"] ∧
    recipientEdgeDocSchema.sourceTypeValues = ["REALTIME", "RETROACTIVE"] ∧
    recipientEdgeDocSchema.confidenceRange = (0, 100) ∧
    (recipientEdgeDocSchema.attrNames.contains "createdAt") = true ∧
    ((phomoStage s).tables TableId.recipientEdge).partitionKey =
      ⟨"edgeId", AttributeType.STRING⟩ := by
  exact ⟨rfl, rfl, rfl, by decide, rfl⟩

/-- C3: the FeedEntry table's UserFeedIndex partitions by recipientUserId
with sort key edgeCreatedAt, and the feed listing read path returns exactly
one recipient's entries sorted by edge-creation time descending. -/
theorem C3_feed_listing_sorted (s : String) (entries : List FeedEntry)
    (recipient : String) :
    ((phomoStage s).tables TableId.feedEntry).globalSecondaryIndexes =
      [⟨"UserFeedIndex", ⟨"recipientUserId", AttributeType.STRING⟩,
        some ⟨"edgeCreatedAt", AttributeType.STRING⟩⟩] ∧
    (listFeed entries recipient).Sorted feedOrder ∧
    ((listFeed entries recipient).all
      fun e => e.recipientUserId == recipient) = true ∧
    (listFeed entries recipient).Perm
      (entries.filter fun e => e.recipientUserId == recipient) := by
  refine ⟨rfl, List.sorted_insertionSort feedOrder _, ?_,
    List.perm_insertionSort feedOrder _⟩
  rw [List.all_eq_true]
  intro e he
  rw [listFeed] at he
  have hmem :=
    (List.perm_insertionSort feedOrder
      (entries.filter fun e => e.recipientUserId == recipient)).mem_iff.mp he
  exact (List.mem_filter.mp hmem).2

/-- C4: the photo bucket emits EventBridge notifications, the one
event-pattern rule of the stage matches Object Created on that bucket under
the photos/ prefix and targets the photo-processing queue, and that queue
feeds exactly the process-content-faces Lambda with batch size one. -/
theorem C4_photo_upload_pipeline (s : String) :
    (phomoStage s).photoBucket.eventBridgeEnabled = true ∧
    photoUploadPattern =
      ⟨["aws.s3"], ["Object Created"], [BucketId.photoBucket], ["photos/"]⟩ ∧
    (phomoStage s).rules.map
        (fun r => (r.eventPattern, r.scheduleRateHours, r.targets)) =
      [(some photoUploadPattern, none,
        [RuleTarget.sqsQueueTarget QueueId.photoProcessing]),
       (none, some 1, [RuleTarget.lambdaTarget LambdaId.sendEventReminders])] ∧
    ((phomoStage s).lambdas LambdaId.processContentFaces).eventSources =
      [EventSourceMapping.sqsSource QueueId.photoProcessing 1 0] ∧
    sqsConsumers (phomoStage s) QueueId.photoProcessing =
      [LambdaId.processContentFaces] := by
  exact ⟨rfl, rfl, rfl, rfl, rfl⟩

/-- C5: the photo-processing queue redelivers up to maxReceiveCount 3 and
then moves the message to a dead-letter queue retained for 14 days. -/
theorem C5_face_processing_dlq (s : String) :
    ((phomoStage s).queues QueueId.photoProcessing).deadLetterQueue =
      some ⟨QueueId.photoProcessingDLQ, 3⟩ ∧
    ((phomoStage s).queues QueueId.photoProcessingDLQ).retentionPeriodDays = 14 ∧
    ((phomoStage s).queues QueueId.photoProcessingDLQ).deadLetterQueue = none := by
  exact ⟨rfl, rfl, rfl⟩

/-- C6 counterexample: the feed-entry-sync stream event source of the dev
stage configures no on-failure destination at all, so a record failing after
the bounded retries is not shunted to any dead-letter channel. -/
theorem C6_no_stream_dlq_counterexample :
    ((phomoStage "dev").lambdas LambdaId.feedEntrySync).eventSources =
      [EventSourceMapping.dynamoStreamSource TableId.recipientEdge
        StartingPosition.TRIM_HORIZON 10 true 3 none] ∧
    (((phomoStage "dev").lambdas LambdaId.feedEntrySync).eventSources.all
      fun es => (streamOnFailure es).isNone) = true := by
  exact ⟨rfl, rfl⟩

/-- C6 amended: the Feed Materializer's stream event source bisects batches
on error and retries up to 3 times, isolating a failing record from its
batch, but a record that still fails after the retries is discarded: no
on-failure dead-letter destination is configured. -/
theorem C6_amended_stream_retry (s : String) :
    ((phomoStage s).lambdas LambdaId.feedEntrySync).eventSources =
      [EventSourceMapping.dynamoStreamSource TableId.recipientEdge
        StartingPosition.TRIM_HORIZON 10 true 3 none] ∧
    (((phomoStage s).lambdas LambdaId.feedEntrySync).eventSources.all
      fun es => (streamOnFailure es).isNone) = true := by
  exact ⟨rfl, rfl⟩

/-- C7: Friendship edges are canonicalized with the lexicographically smaller
user first, the userPair lookup key is identical for both orders of an
unordered pair, creating the reverse-direction edge after one exists is a
no-op, and the friendship table carries the UserPairIndex over userPair. -/
theorem C7_friendship_canonicalization (a b : String) (h : a ≠ b) :
    (canonicalUserPair a b).1 < (canonicalUserPair a b).2 ∧
    userPairKey a b = userPairKey b a ∧
    (∀ keys : List String,
      createFriendship (createFriendship keys a b) b a =
        createFriendship keys a b) ∧
    (∀ s : String,
      (((phomoStage s).tables TableId.friendship).globalSecondaryIndexes.contains
        ⟨"UserPairIndex", ⟨"userPair", AttributeType.STRING⟩, none⟩) = true) := by
  refine ⟨?_, userPairKey_comm a b, fun keys => createFriendship_reverse keys a b,
    fun s => rfl⟩
  rw [canonicalUserPair]
  rcases lt_or_gt_of_ne h with hlt | hgt
  · rw [if_pos hlt]; exact hlt
  · rw [if_neg (not_lt_of_gt hgt)]; exact hgt

/-- C7 witness: the canonicalization at the concrete pair alice, bob. -/
theorem C7_friendship_canonicalization_witness :
    ("alice" : String) ≠ "bob" ∧
    (canonicalUserPair "alice" "bob").1 < (canonicalUserPair "alice" "bob").2 ∧
    userPairKey "alice" "bob" = userPairKey "bob" "alice" ∧
    createFriendship (createFriendship [] "alice" "bob") "bob" "alice" =
      createFriendship [] "alice" "bob" ∧
    (((phomoStage "dev").tables TableId.friendship).globalSecondaryIndexes.contains
      ⟨"UserPairIndex", ⟨"userPair", AttributeType.STRING⟩, none⟩) = true :=
  ⟨by decide,
   (C7_friendship_canonicalization "alice" "bob" (by decide)).1,
   (C7_friendship_canonicalization "alice" "bob" (by decide)).2.1,
   (C7_friendship_canonicalization "alice" "bob" (by decide)).2.2.1 [],
   (C7_friendship_canonicalization "alice" "bob" (by decide)).2.2.2 "dev"⟩

/-- C8: the accept-friendship Lambda is the sole holder of an invoke grant on
the retroactive-match function, which has no event source, no rule target and
no AppSync data source of its own, and the modelled acceptance resolver
invokes retroactive matching exactly once per transition to ACCEPTED and
zero times on redelivery. -/
theorem C8_retroactive_sole_trigger (s : String) :
    invokersOf (phomoStage s) LambdaId.retroactiveMatch =
      [LambdaId.acceptFriendship] ∧
    ((phomoStage s).lambdas LambdaId.retroactiveMatch).eventSources = [] ∧
    ((phomoStage s).rules.all fun r =>
      !(r.targets.contains (RuleTarget.lambdaTarget LambdaId.retroactiveMatch))) =
      true ∧
    ((phomoStage s).dataSources.contains
      (DataSource.lambdaSource LambdaId.retroactiveMatch)) = false ∧
    (∀ f : FriendshipRec,
      ((acceptFriendshipResolver f).2 = 1 ↔ f.status = FriendshipStatus.PENDING) ∧
      (acceptFriendshipResolver f).1.status = FriendshipStatus.ACCEPTED ∧
      (acceptFriendshipResolver ((acceptFriendshipResolver f).1)).2 = 0) := by
  refine ⟨rfl, rfl, rfl, rfl, ?_⟩
  intro f
  cases f with
  | mk u1 u2 st req => cases st <;> simp [acceptFriendshipResolver]

/-- C9: for every stage, the authenticated role's policy contains an
unconditional ALLOW of s3:GetObject on every object two levels under the
photos and faces folders of the photo bucket, and no statement in the policy denies
anything. -/
theorem C9_broad_read_policy (s : String) :
    S3PolicyStatement.mk Effect.ALLOW ["s3:GetObject"]
        [⟨BucketId.photoBucket, some "photos/*/*"⟩,
         ⟨BucketId.photoBucket, some "faces/*/*"⟩] []
      ∈ (phomoStage s).authRolePolicy ∧
    ((phomoStage s).authRolePolicy.all fun st => st.effect == Effect.ALLOW) =
      true := by
  constructor
  · show _ ∈ authenticatedRolePolicy
    decide
  · rfl

/-- C10: each of the nine tables gets point-in-time recovery, deletion
protection and a RETAIN removal policy exactly when the stage is prod, the
photo bucket and the user pool get RETAIN exactly in prod, and the bucket
auto-deletes its objects exactly outside prod. -/
theorem C10_prod_protection (s : String) :
    (∀ t : TableId,
      (((phomoStage s).tables t).pointInTimeRecovery = true ↔ s = "prod") ∧
      (((phomoStage s).tables t).deletionProtection = true ↔ s = "prod") ∧
      (((phomoStage s).tables t).removalPolicy = RemovalPolicy.RETAIN ↔
        s = "prod")) ∧
    ((phomoStage s).photoBucket.removalPolicy = RemovalPolicy.RETAIN ↔
      s = "prod") ∧
    ((phomoStage s).photoBucket.autoDeleteObjects = false ↔ s = "prod") ∧
    ((phomoStage s).userPool.deletionProtection = true ↔ s = "prod") ∧
    ((phomoStage s).userPool.removalPolicy = RemovalPolicy.RETAIN ↔
      s = "prod") := by
  refine ⟨?_, ?_, ?_, ?_, ?_⟩
  · intro t
    cases t <;>
      simp [phomoStage, databaseStack, ite_removal_retain]
  · simp [phomoStage, storagePhotoBucket, ite_removal_retain]
  · simp [phomoStage, storagePhotoBucket]
  · simp [phomoStage, authUserPool]
  · simp [phomoStage, authUserPool, ite_removal_retain]

end PhomoV2CDK
